import Mathlib

/-!
Shallow embedding of the data-driven test-data layer of the
Playwright/Cucumber test framework (TypeScript sources under `src/`):

* `src/utils/dataService.ts` — `DataService.loadData`, `getData`,
  `getSingleData` over a multi-sheet Excel workbook cache;
* `src/data/generators/scenarioGenerator.ts` — `generateLoginFeature`;
* `src/config/config.ts` — `getConfig` environment resolution;
* `src/support/world.ts` — `CustomWorld.closeBrowser`, `takeScreenshot`;
* `src/steps/loginSteps.ts` — the data-driven login outcome assertion.

JavaScript objects keyed by strings are embedded as association lists in
insertion order; property assignment updates in place or appends.  Cell
values carry the loosely-typed scalars produced by `sheet_to_json`.
File I/O is a parameter: reading is a function from path to a parsed
workbook or an error message, writing is an association-list store.
-/

/-- A cell value parsed from a worksheet: string, number or boolean
(`sheet_to_json` keeps native scalar types).  Numbers are embedded as
integers; the claims under study only ever compare cells for strict
equality, never compute with them. -/
inductive CellValue
  | str (s : String)
  | num (n : Int)
  | bool (b : Bool)
deriving DecidableEq

/-- A row record: JS object mapping column name to cell value, embedded
as an association list in key-insertion order (keys unique). -/
abbrev Row := List (String × CellValue)

/-- A sheet: ordered sequence of row records. -/
abbrev Sheet := List Row

/-- A parsed workbook: sheet name to rows, in `SheetNames` order
(combining `XLSX.readFile` and `sheet_to_json` per sheet). -/
abbrev Workbook := List (String × Sheet)

/-- The readable file system seen by `XLSX.readFile`: a path either
parses to a workbook or raises with an error message (covering missing,
unreadable and unparseable files alike). -/
abbrev FileSystem := String → Except String Workbook

/-- Log levels of `src/utils/logger.ts`. -/
inductive LogLevel
  | debug
  | info
  | warn
  | error
deriving DecidableEq

/-- One emitted log entry. -/
structure LogEntry where
  level : LogLevel
  message : String
deriving DecidableEq

/-- JS property assignment `obj[k] = v` on a string-keyed object:
update the existing binding in place, or append a new one. -/
def jsObjectSet {β : Type} : List (String × β) → String → β → List (String × β)
  | [], k, v => [(k, v)]
  | (k', v') :: rest, k, v =>
      if k' = k then (k', v) :: rest else (k', v') :: jsObjectSet rest k v

/-- The mutable state of the `DataService` singleton: its sheet cache
(`private cache: DataCache = {}`). -/
structure DataServiceState where
  cache : List (String × Sheet)
deriving DecidableEq

/-- Default workbook path (`path.join(process.cwd(), 'test_data.xlsx')`);
paths are embedded already resolved, so the `cwd` join is the identity. -/
def EXCEL_FILE_PATH : String := "test_data.xlsx"

/-- Embeds `DataService.loadData`: read the workbook at `filePath`; on success
assign each sheet into the cache in `SheetNames` order (JS property
assignment — pre-existing sheets with other names are not removed); on
failure log and rethrow `DataService failed to load data: …` with the
cache untouched.  Returns (outcome, post-state, log). -/
def loadData (fs : FileSystem) (filePath : String) (st : DataServiceState) :
    Except String Unit × DataServiceState × List LogEntry :=
  let logs0 : List LogEntry :=
    [⟨LogLevel.info, "Attempting to load data from: " ++ filePath⟩]
  match fs filePath with
  | Except.error e =>
      (Except.error ("DataService failed to load data: " ++ e), st,
        logs0 ++ [⟨LogLevel.error, "Failed to load Excel data from " ++ filePath ++ ". Error:"⟩])
  | Except.ok wb =>
      let newCache := wb.foldl (fun c p => jsObjectSet c p.1 p.2) st.cache
      let sheetLogs := wb.map (fun p =>
        (⟨LogLevel.info, "Successfully loaded " ++ toString p.2.length ++
            " rows from sheet: " ++ p.1⟩ : LogEntry))
      (Except.ok (), ⟨newCache⟩,
        logs0 ++ sheetLogs ++ [⟨LogLevel.info, "All data sheets loaded successfully."⟩])

/-- Embeds `DataService.getData`: if the cache is empty, warn and lazily
`loadData` from the default path (propagating its exception); then read
`cache[sheetName]`, logging an error and returning `[]` when the sheet
is absent. -/
def getData (fs : FileSystem) (sheetName : String) (st : DataServiceState) :
    Except String (List Row) × DataServiceState × List LogEntry :=
  let step :=
    if st.cache.isEmpty then
      let r := loadData fs EXCEL_FILE_PATH st
      (r.1, r.2.1,
        (⟨LogLevel.warn, "Data cache is empty. Attempting to load data now."⟩ : LogEntry) :: r.2.2)
    else (Except.ok (), st, ([] : List LogEntry))
  match step with
  | (Except.error e, st1, logs1) => (Except.error e, st1, logs1)
  | (Except.ok _, st1, logs1) =>
      match st1.cache.lookup sheetName with
      | none =>
          (Except.ok [], st1,
            logs1 ++ [⟨LogLevel.error, "Sheet '" ++ sheetName ++ "' not found in Excel file."⟩])
      | some d => (Except.ok d, st1, logs1)

/-- Embeds `DataService.getSingleData`: `getData(sheetName).find(row => row[key] === value)`.
Strict equality `row[key] === value` against a defined scalar `value`
holds exactly when the column is present with that value. -/
def getSingleData (fs : FileSystem) (sheetName key : String) (value : CellValue)
    (st : DataServiceState) :
    Except String (Option Row) × DataServiceState × List LogEntry :=
  match getData fs sheetName st with
  | (Except.error e, st1, logs1) => (Except.error e, st1, logs1)
  | (Except.ok data, st1, logs1) =>
      (Except.ok (data.find? (fun row => decide (row.lookup key = some value))), st1, logs1)

/-- The process environment slice read by `src/config/config.ts`; each
variable is either set to a string or unset. -/
structure ProcessEnv where
  NODE_ENV : Option String := none
  HEADLESS : Option String := none
  SLOW_MO : Option String := none
  TIMEOUT : Option String := none
  BROWSER : Option String := none
  VIEWPORT_WIDTH : Option String := none
  VIEWPORT_HEIGHT : Option String := none
  ALLURE_RESULTS_DIR : Option String := none
  SCREENSHOT_ON_FAIL : Option String := none
  PROD_BASE_URL : Option String := none
  STAGING_BASE_URL : Option String := none
  DEV_BASE_URL : Option String := none
  LOCAL_BASE_URL : Option String := none
deriving DecidableEq

/-- JS `x || d` on an env var: unset and the empty string are falsy. -/
def jsOr (o : Option String) (d : String) : String :=
  match o with
  | some s => if s = "" then d else s
  | none => d

/-- Digit-prefix parser backing `parseInt(s, 10)`: longest leading run
of decimal digits, `none` when the run is empty (JS `NaN`). -/
def parseDigits (l : List Char) : Option Nat :=
  let ds := l.takeWhile (fun c => c.isDigit)
  if ds = [] then none
  else some (ds.foldl (fun n c => n * 10 + (c.toNat - 48)) 0)

/-- JS `parseInt(s, 10)`: skip leading whitespace, optional sign, then
a decimal-digit prefix; `none` models `NaN`. -/
def jsParseInt (s : String) : Option Int :=
  match s.data.dropWhile (fun c => c.isWhitespace) with
  | '-' :: rest => (parseDigits rest).map (fun n => -(n : Int))
  | '+' :: rest => (parseDigits rest).map (fun n => (n : Int))
  | t => (parseDigits t).map (fun n => (n : Int))

/-- The resolved settings object (`IConfig` in `src/config/config.ts`).
`Option Int` fields model JS numbers that may be `NaN` (`none`). -/
structure IConfig where
  ENV : String
  BASE_URL : String
  HEADLESS : Bool
  SLOW_MO : Option Int
  TIMEOUT : Option Int
  BROWSER : String
  VIEWPORT_WIDTH : Option Int
  VIEWPORT_HEIGHT : Option Int
  ALLURE_RESULTS_DIR : String
  SCREENSHOT_ON_FAIL : Bool
deriving DecidableEq

/-- Embeds `getConfig` from `src/config/config.ts`: base settings computed from
env vars, then a `switch` on the environment name layering per-profile
overrides; `case 'local':` shares the `default:` branch.  The TS
`baseConfig` is `Partial` and omits `BASE_URL`; every branch assigns it,
so the `""` placeholder below is never observable. -/
def getConfig (env : ProcessEnv) : IConfig :=
  let envName := jsOr env.NODE_ENV "local"
  let base : IConfig := {
    ENV := envName
    BASE_URL := ""
    HEADLESS := if env.HEADLESS = some "false" then false else true
    SLOW_MO := jsParseInt (jsOr env.SLOW_MO "0")
    TIMEOUT := jsParseInt (jsOr env.TIMEOUT "30000")
    BROWSER := jsOr env.BROWSER "chromium"
    VIEWPORT_WIDTH := jsParseInt (jsOr env.VIEWPORT_WIDTH "1920")
    VIEWPORT_HEIGHT := jsParseInt (jsOr env.VIEWPORT_HEIGHT "1080")
    ALLURE_RESULTS_DIR := jsOr env.ALLURE_RESULTS_DIR "allure-results"
    SCREENSHOT_ON_FAIL := if env.SCREENSHOT_ON_FAIL = some "true" then true else false }
  if envName = "production" then
    { base with
        BASE_URL := jsOr env.PROD_BASE_URL "https://prod.example.com"
        HEADLESS := true
        SCREENSHOT_ON_FAIL := false }
  else if envName = "staging" then
    { base with
        BASE_URL := jsOr env.STAGING_BASE_URL "https://staging.example.com"
        HEADLESS := true }
  else if envName = "development" then
    { base with
        BASE_URL := jsOr env.DEV_BASE_URL "http://localhost:5173"
        HEADLESS := false }
  else
    { base with
        BASE_URL := jsOr env.LOCAL_BASE_URL "http://localhost:5173"
        HEADLESS := false
        SLOW_MO := some (50 : Int) }

/-- Prefix test: `leadsWith pat l` decides whether `l` starts with `pat`
(character-list form of JS `String.prototype.startsWith`). -/
def leadsWith : List Char → List Char → Bool
  | [], _ => true
  | _ :: _, [] => false
  | a :: as, b :: bs => a == b && leadsWith as bs

/-- JS `s.startsWith(pre)`. -/
def jsStartsWith (s pre : String) : Bool :=
  leadsWith pre.data s.data

/-- Character-list form of JS `String.prototype.replace` with a string
pattern: replace the first occurrence of `pat` by `repl`, leave the
input unchanged when `pat` does not occur. -/
def replaceFirstChars (pat repl : List Char) : List Char → List Char
  | [] => if leadsWith pat [] then repl else []
  | c :: cs =>
      if leadsWith pat (c :: cs) then repl ++ (c :: cs).drop pat.length
      else c :: replaceFirstChars pat repl cs

/-- JS `s.replace(pat, repl)` (string pattern: first occurrence only). -/
def jsReplaceFirst (s pat repl : String) : String :=
  ⟨replaceFirstChars pat.data repl.data s.data⟩

/-- The branch taken by the step
`Then('the login result should match the expected outcome')` in
`src/steps/loginSteps.ts`, as a function of the routing value. -/
inductive LoginOutcome
  | missingExpected
  | successBranch
  | errorBranch (expectedErrorMessage : String)
  | unknownFormat (raw : String)
deriving DecidableEq

/-- Routing logic of the data-driven login assertion: a falsy
`this.testData.expectedResult` (absent or `""`) throws
`Expected result not set in test data.`; a `Success`-prefixed value
takes the redirect-plus-landmark branch; an `Error:`-prefixed value
takes the error branch asserting the message obtained by
`expectedResult.replace('Error: ', '')` and that the URL stays on
`/login`; anything else throws `Unknown expected result format`. -/
def assertLoginOutcome (expectedResult : Option String) : LoginOutcome :=
  match expectedResult with
  | none => LoginOutcome.missingExpected
  | some s =>
      if s = "" then LoginOutcome.missingExpected
      else if jsStartsWith s "Success" then LoginOutcome.successBranch
      else if jsStartsWith s "Error:" then
        LoginOutcome.errorBranch (jsReplaceFirst s "Error: " "")
      else LoginOutcome.unknownFormat s

/-- A source row consumed by `generateLoginFeature`
(`src/data/generators/scenarioGenerator.ts` reads `row.username` and
`row.password`). -/
structure LoginRow where
  username : String
  password : String
deriving DecidableEq

/-- The template-literal block appended for row number `idx` (0-based,
printed 1-based as in `index + 1`). -/
def scenarioBlock (idx : Nat) (row : LoginRow) : String :=
  "\n  Scenario: Login test #" ++ toString (idx + 1) ++ " (" ++ row.username ++ ")\n" ++
  "    Given I login with username \"" ++ row.username ++ "\" and password \"" ++
  row.password ++ "\"\n    Then Login should be successful\n"

/-- Accumulated file content of `generateLoginFeature`: the feature
header then `data.forEach((row, index) => featureContent += block)`. -/
def buildLoginFeature (data : List LoginRow) : String :=
  (data.enum).foldl (fun acc p => acc ++ scenarioBlock p.1 p.2) "Feature: Login DDT Tests\n"

/-- The fixed output path (`path.join(cwd, "src", "features", "generated",
"loginDDT.feature")`, with the `cwd` join abstracted away). -/
def FEATURE_OUTPUT_PATH : String := "src/features/generated/loginDDT.feature"

/-- A writable file store: path to current content. -/
abbrev FileStore := List (String × String)

/-- Embeds `generateLoginFeature()`: build the content from the source rows and
`fs.writeFileSync` it to the fixed output path, overwriting. -/
def generateLoginFeature (data : List LoginRow) (fs : FileStore) : FileStore :=
  jsObjectSet fs FEATURE_OUTPUT_PATH (buildLoginFeature data)

/-- An open browser handle held by the World. -/
structure BrowserSession where
  id : Nat
deriving DecidableEq

/-- An open page handle; `shot` is the byte buffer its screenshot
produces. -/
structure PageHandle where
  shot : List Nat
deriving DecidableEq

/-- The per-scenario `CustomWorld` slice relevant to teardown and
artifact capture (`src/support/world.ts`): `browser!` and `page!` are
`undefined` (`none`) until `initBrowser` ran. -/
structure CustomWorld where
  browser : Option BrowserSession := none
  page : Option PageHandle := none
  config : IConfig
deriving DecidableEq

/-- Externally visible browser-driver calls issued by World methods. -/
inductive BrowserAction
  | close (id : Nat)
  | screenshot (path : String)
deriving DecidableEq

/-- Embeds `CustomWorld.closeBrowser`: `if (this.browser) { log; await
this.browser.close(); }` — with no session the guard fails and nothing
happens.  Returns the driver calls made and the log. -/
def closeBrowser (w : CustomWorld) : List BrowserAction × List LogEntry :=
  match w.browser with
  | some b => ([BrowserAction.close b.id], [⟨LogLevel.info, "Closing browser..."⟩])
  | none => ([], [])

/-- Embeds `scenarioName.replace(/\s/g, '_')`. -/
def sanitizeScenarioName (s : String) : String :=
  ⟨s.data.map (fun c => if c.isWhitespace then '_' else c)⟩

/-- Embeds `CustomWorld.takeScreenshot`: with an active page, build the
timestamped path under the Allure results directory, log, screenshot and
return the buffer; with no page (`if (this.page)` fails) return
`undefined`.  `now` stands for `Date.now()`; the `cwd` path join is
abstracted to string concatenation. -/
def takeScreenshot (w : CustomWorld) (scenarioName : String) (now : Nat) :
    Option (List Nat) × List BrowserAction × List LogEntry :=
  match w.page with
  | some p =>
      let screenshotPath :=
        w.config.ALLURE_RESULTS_DIR ++ "/screenshot-" ++ sanitizeScenarioName scenarioName ++
        "-" ++ toString now ++ ".png"
      (some p.shot, [BrowserAction.screenshot screenshotPath],
        [⟨LogLevel.debug, "Taking screenshot: " ++ screenshotPath⟩])
  | none => (none, [], [])

/-! ### Lemmas about the embedded JS object primitives -/

/-- Lookup after a property assignment: the assigned key reads the new
value, every other key is unaffected. -/
theorem jsObjectSet_lookup {β : Type} (m : List (String × β)) (k k' : String) (v : β) :
    (jsObjectSet m k v).lookup k' = if k' = k then some v else m.lookup k' := by
  induction m with
  | nil =>
      by_cases h : k' = k
      · simp [jsObjectSet, List.lookup_cons, h]
      · have hb : (k' == k) = false := beq_eq_false_iff_ne.mpr h
        simp [jsObjectSet, List.lookup_cons, hb, h]
  | cons hd tl ih =>
      obtain ⟨k0, v0⟩ := hd
      by_cases h0 : k0 = k
      · subst h0
        by_cases h1 : k' = k0
        · simp [jsObjectSet, List.lookup_cons, h1]
        · have hb : (k' == k0) = false := beq_eq_false_iff_ne.mpr h1
          simp [jsObjectSet, List.lookup_cons, hb, h1]
      · by_cases h1 : k' = k0
        · subst h1
          simp [jsObjectSet, h0, List.lookup_cons]
        · have hb : (k' == k0) = false := beq_eq_false_iff_ne.mpr h1
          simp [jsObjectSet, h0, List.lookup_cons, hb, h1, ih]

/-- Assigning the same value twice is the same as assigning it once. -/
theorem jsObjectSet_idem {β : Type} (m : List (String × β)) (k : String) (v : β) :
    jsObjectSet (jsObjectSet m k v) k v = jsObjectSet m k v := by
  induction m with
  | nil => simp [jsObjectSet]
  | cons hd tl ih =>
      obtain ⟨k0, v0⟩ := hd
      by_cases h0 : k0 = k <;> simp [jsObjectSet, h0, ih]

/-- Folding property assignments over a workbook leaves keys outside the
workbook's sheet names untouched. -/
theorem foldl_jsObjectSet_lookup_not_mem (wb : Workbook) :
    ∀ (c : List (String × Sheet)) (name : String), name ∉ wb.map Prod.fst →
      (wb.foldl (fun c p => jsObjectSet c p.1 p.2) c).lookup name = c.lookup name := by
  induction wb with
  | nil => intro c name _; rfl
  | cons hd tl ih =>
      intro c name hmem
      simp only [List.map_cons, List.mem_cons, not_or] at hmem
      rw [List.foldl_cons, ih _ name hmem.2, jsObjectSet_lookup]
      simp [hmem.1]

/-- Folding property assignments over a workbook with distinct sheet
names makes every workbook sheet readable at its new rows. -/
theorem foldl_jsObjectSet_lookup_found (wb : Workbook) :
    ∀ (c : List (String × Sheet)) (name : String) (rows : Sheet),
      (wb.map Prod.fst).Nodup → wb.lookup name = some rows →
      (wb.foldl (fun c p => jsObjectSet c p.1 p.2) c).lookup name = some rows := by
  induction wb with
  | nil => intro c name rows _ h; simp at h
  | cons hd tl ih =>
      intro c name rows hnodup hlk
      obtain ⟨k0, v0⟩ := hd
      simp only [List.map_cons, List.nodup_cons] at hnodup
      rw [List.foldl_cons]
      rw [List.lookup_cons] at hlk
      by_cases h0 : name = k0
      · subst h0
        simp only [beq_self_eq_true] at hlk
        rw [foldl_jsObjectSet_lookup_not_mem tl _ name hnodup.1, jsObjectSet_lookup]
        simp at hlk
        simp [hlk]
      · have hb : (name == k0) = false := beq_eq_false_iff_ne.mpr h0
        simp only [hb] at hlk
        exact ih _ name rows hnodup.2 hlk

/-- First-match specification: `find?` returns the first element satisfying the predicate: the list
splits into a failing prefix, the found element, and a remainder. -/
theorem find?_first_spec {α : Type} (p : α → Bool) :
    ∀ l : List α, (∃ x ∈ l, p x = true) →
      ∃ pre x post, l = pre ++ x :: post ∧ p x = true ∧
        (∀ y ∈ pre, p y = false) ∧ l.find? p = some x := by
  intro l
  induction l with
  | nil => intro h; simp at h
  | cons a l ih =>
      intro h
      cases hp : p a with
      | true =>
          exact ⟨[], a, l, rfl, hp, by simp, by simp [List.find?, hp]⟩
      | false =>
          have hl : ∃ x ∈ l, p x = true := by
            obtain ⟨x, hx, hpx⟩ := h
            cases List.mem_cons.mp hx with
            | inl he => rw [he, hp] at hpx; exact absurd hpx (by simp)
            | inr hm => exact ⟨x, hm, hpx⟩
          obtain ⟨pre, x, post, heq, hpx, hpre, hfind⟩ := ih hl
          refine ⟨a :: pre, x, post, by rw [heq]; rfl, hpx, ?_, ?_⟩
          · intro y hy
            cases List.mem_cons.mp hy with
            | inl he => rw [he]; exact hp
            | inr hm => exact hpre y hm
          · simp [List.find?, hp, hfind]

/-! ### Behaviour of `getData` / `getSingleData` on a populated cache -/

/-- With the sheet present in the cache, `getData` returns its rows,
changes nothing and logs nothing. -/
theorem getData_found (fs : FileSystem) (n : String) (st : DataServiceState) (d : List Row)
    (h : st.cache.lookup n = some d) :
    getData fs n st = (Except.ok d, st, []) := by
  obtain ⟨c⟩ := st
  cases c with
  | nil => simp at h
  | cons hd tl => simp [getData, h]

/-- With a populated cache but the sheet absent, `getData` returns `[]`
after an error-level log, changing nothing. -/
theorem getData_missing (fs : FileSystem) (n : String) (st : DataServiceState)
    (hne : st.cache ≠ []) (h : st.cache.lookup n = none) :
    getData fs n st =
      (Except.ok [], st,
        [⟨LogLevel.error, "Sheet '" ++ n ++ "' not found in Excel file."⟩]) := by
  obtain ⟨c⟩ := st
  cases c with
  | nil => exact absurd rfl hne
  | cons hd tl => simp [getData, h]

/-- With the sheet present, `getSingleData` is a pure first-match scan. -/
theorem getSingleData_found (fs : FileSystem) (n k : String) (v : CellValue)
    (st : DataServiceState) (d : List Row) (h : st.cache.lookup n = some d) :
    getSingleData fs n k v st =
      (Except.ok (d.find? fun row => decide (row.lookup k = some v)), st, []) := by
  simp [getSingleData, getData_found fs n st d h]

/-! ### Claim C7 — load failure signals an error and leaves the cache untouched -/

/-- C7: when the workbook at `path` cannot be read or parsed, `loadData`
fails with the `DataService failed to load data:` error (the
`DataLoadError` of the specification) and the Data Cache is exactly what
it was before the call — no partially loaded sheets become queryable. -/
theorem C7_load_failure_leaves_cache (fs : FileSystem) (filePath : String)
    (st : DataServiceState) (e : String) (h : fs filePath = Except.error e) :
    (loadData fs filePath st).1 = Except.error ("DataService failed to load data: " ++ e) ∧
    (loadData fs filePath st).2.1 = st := by
  simp [loadData, h]

/-- C7 witness: a concrete unreadable path with a populated cache. -/
theorem C7_load_failure_leaves_cache_witness :
    (fun _ => Except.error "ENOENT: no such file or directory" : FileSystem) "missing.xlsx"
        = Except.error "ENOENT: no such file or directory" ∧
    ((loadData (fun _ => Except.error "ENOENT: no such file or directory") "missing.xlsx"
          ⟨[("Login", [[("username", CellValue.str "admin")]])]⟩).1 =
        Except.error ("DataService failed to load data: " ++ "ENOENT: no such file or directory") ∧
      (loadData (fun _ => Except.error "ENOENT: no such file or directory") "missing.xlsx"
          ⟨[("Login", [[("username", CellValue.str "admin")]])]⟩).2.1 =
        ⟨[("Login", [[("username", CellValue.str "admin")]])]⟩) :=
  ⟨rfl, C7_load_failure_leaves_cache _ _ _ _ rfl⟩

/-! ### Claim C9 — teardown and artifact capture tolerate an absent session -/

/-- C9: with no browser session ever opened, `closeBrowser` performs no
driver call and emits no log (a no-op rather than an error), and with no
active page `takeScreenshot` returns `undefined` (`none`) instead of
throwing. -/
theorem C9_teardown_tolerant (w : CustomWorld) (scenarioName : String) (now : Nat)
    (hb : w.browser = none) (hp : w.page = none) :
    closeBrowser w = ([], []) ∧ takeScreenshot w scenarioName now = (none, [], []) := by
  constructor
  · simp [closeBrowser, hb]
  · simp [takeScreenshot, hp]

/-- C9 witness: a freshly constructed World, before `initBrowser`. -/
theorem C9_teardown_tolerant_witness :
    ({ browser := none, page := none, config := getConfig {} } : CustomWorld).browser = none ∧
    ({ browser := none, page := none, config := getConfig {} } : CustomWorld).page = none ∧
    (closeBrowser { browser := none, page := none, config := getConfig {} } = ([], []) ∧
      takeScreenshot { browser := none, page := none, config := getConfig {} } "Login test" 0 =
        (none, [], [])) :=
  ⟨rfl, rfl, C9_teardown_tolerant _ "Login test" 0 rfl rfl⟩

/-! ### Claim C10 — lookups on a populated cache never mutate it -/

/-- C10: when the Data Cache is non-empty, `getData` and `getSingleData`
return their result with the service state unchanged — the only cache
mutation outside `loadData` is the lazy load on a completely empty
cache. -/
theorem C10_lookup_frame (fs : FileSystem) (n k : String) (v : CellValue)
    (st : DataServiceState) (h : st.cache ≠ []) :
    (getData fs n st).2.1 = st ∧ (getSingleData fs n k v st).2.1 = st := by
  cases hl : st.cache.lookup n with
  | none =>
      rw [getData_missing fs n st h hl]
      refine ⟨rfl, ?_⟩
      simp [getSingleData, getData_missing fs n st h hl]
  | some d =>
      rw [getData_found fs n st d hl]
      exact ⟨rfl, by rw [getSingleData_found fs n k v st d hl]⟩

/-- C10 witness: a one-sheet cache, queried for a different sheet. -/
theorem C10_lookup_frame_witness :
    (⟨[("Login", [[("username", CellValue.str "admin")]])]⟩ : DataServiceState).cache ≠ [] ∧
    ((getData (fun _ => Except.error "ENOENT") "Todo"
          ⟨[("Login", [[("username", CellValue.str "admin")]])]⟩).2.1 =
        ⟨[("Login", [[("username", CellValue.str "admin")]])]⟩ ∧
      (getSingleData (fun _ => Except.error "ENOENT") "Todo" "test_case_id"
          (CellValue.str "TC-LOGIN-001")
          ⟨[("Login", [[("username", CellValue.str "admin")]])]⟩).2.1 =
        ⟨[("Login", [[("username", CellValue.str "admin")]])]⟩) :=
  ⟨by decide,
    C10_lookup_frame (fun _ => Except.error "ENOENT") "Todo" "test_case_id"
      (CellValue.str "TC-LOGIN-001") ⟨[("Login", [[("username", CellValue.str "admin")]])]⟩
      (by decide)⟩

/-! ### Claim C3 — `getRow` is a deterministic first-match lookup -/

/-- C3: when the sheet is cached and at least one of its rows has the
key column equal to the value, `getSingleData` returns the first such
row in source order (every earlier row fails the match), and repeating
the call on the state the first call returned yields the identical
result. -/
theorem C3_first_match_deterministic (fs : FileSystem) (n k : String) (v : CellValue)
    (st : DataServiceState) (rows : List Row)
    (hsheet : st.cache.lookup n = some rows)
    (hex : ∃ r ∈ rows, r.lookup k = some v) :
    ∃ pre r post,
      rows = pre ++ r :: post ∧
      r.lookup k = some v ∧
      (∀ x ∈ pre, x.lookup k ≠ some v) ∧
      getSingleData fs n k v st = (Except.ok (some r), st, []) ∧
      getSingleData fs n k v ((getSingleData fs n k v st).2.1) = getSingleData fs n k v st := by
  have hex' : ∃ r ∈ rows, (fun row => decide (row.lookup k = some v)) r = true := by
    obtain ⟨r, hr, hv⟩ := hex
    exact ⟨r, hr, by simp [hv]⟩
  obtain ⟨pre, r, post, heq, hr, hpre, hfind⟩ :=
    find?_first_spec (fun row => decide (row.lookup k = some v)) rows hex'
  have hres : getSingleData fs n k v st = (Except.ok (some r), st, []) := by
    rw [getSingleData_found fs n k v st rows hsheet, hfind]
  refine ⟨pre, r, post, heq, of_decide_eq_true hr, ?_, hres, ?_⟩
  · intro x hx
    have := hpre x hx
    exact of_decide_eq_false this
  · rw [hres]
    exact hres

/-- C3 witness: a sheet with two rows sharing the key value; the first
one is returned. -/
theorem C3_first_match_deterministic_witness :
    (⟨[("Login",
        [[("test_case_id", CellValue.str "TC-1"), ("username", CellValue.str "first")],
         [("test_case_id", CellValue.str "TC-1"), ("username", CellValue.str "second")]])]⟩ :
      DataServiceState).cache.lookup "Login" =
      some [[("test_case_id", CellValue.str "TC-1"), ("username", CellValue.str "first")],
            [("test_case_id", CellValue.str "TC-1"), ("username", CellValue.str "second")]] ∧
    (∃ r ∈ [[("test_case_id", CellValue.str "TC-1"), ("username", CellValue.str "first")],
            [("test_case_id", CellValue.str "TC-1"), ("username", CellValue.str "second")]],
        r.lookup "test_case_id" = some (CellValue.str "TC-1")) ∧
    (∃ pre r post,
      [[("test_case_id", CellValue.str "TC-1"), ("username", CellValue.str "first")],
       [("test_case_id", CellValue.str "TC-1"), ("username", CellValue.str "second")]] =
          pre ++ r :: post ∧
      r.lookup "test_case_id" = some (CellValue.str "TC-1") ∧
      (∀ x ∈ pre, x.lookup "test_case_id" ≠ some (CellValue.str "TC-1")) ∧
      getSingleData (fun _ => Except.error "ENOENT") "Login" "test_case_id"
          (CellValue.str "TC-1")
          ⟨[("Login",
            [[("test_case_id", CellValue.str "TC-1"), ("username", CellValue.str "first")],
             [("test_case_id", CellValue.str "TC-1"), ("username", CellValue.str "second")]])]⟩ =
        (Except.ok (some r),
          ⟨[("Login",
            [[("test_case_id", CellValue.str "TC-1"), ("username", CellValue.str "first")],
             [("test_case_id", CellValue.str "TC-1"), ("username", CellValue.str "second")]])]⟩,
          []) ∧
      getSingleData (fun _ => Except.error "ENOENT") "Login" "test_case_id"
          (CellValue.str "TC-1")
          ((getSingleData (fun _ => Except.error "ENOENT") "Login" "test_case_id"
              (CellValue.str "TC-1")
              ⟨[("Login",
                [[("test_case_id", CellValue.str "TC-1"), ("username", CellValue.str "first")],
                 [("test_case_id", CellValue.str "TC-1"), ("username", CellValue.str "second")]])]⟩).2.1) =
        getSingleData (fun _ => Except.error "ENOENT") "Login" "test_case_id"
          (CellValue.str "TC-1")
          ⟨[("Login",
            [[("test_case_id", CellValue.str "TC-1"), ("username", CellValue.str "first")],
             [("test_case_id", CellValue.str "TC-1"), ("username", CellValue.str "second")]])]⟩) :=
  ⟨rfl,
    ⟨[("test_case_id", CellValue.str "TC-1"), ("username", CellValue.str "first")],
      by decide, by decide⟩,
    C3_first_match_deterministic (fun _ => Except.error "ENOENT") "Login" "test_case_id"
      (CellValue.str "TC-1") _ _ rfl
      ⟨[("test_case_id", CellValue.str "TC-1"), ("username", CellValue.str "first")],
        by decide, by decide⟩⟩

/-! ### Claim C2 — corrected: `getRow` is total only on a populated cache,
and the absent-sheet log is error-level -/

/-- C2 counterexample: with an empty cache and an unreadable default
workbook, `getSingleData` propagates the lazy `loadData` exception — it
throws rather than returning an empty result, so "never throws" is
false as stated. -/
theorem C2_lazy_load_throws_counterexample :
    (getSingleData (fun _ => Except.error "ENOENT") "Login" "test_case_id"
        (CellValue.str "TC-LOGIN-001") ⟨[]⟩).1 =
      Except.error "DataService failed to load data: ENOENT" := by
  rfl

/-- C2 as amended: once the Data Cache is non-empty, `getSingleData`
never throws — it returns `ok` for every sheet name, key and value; an
absent key value yields `ok none`, and an absent sheet name yields
`ok none` after an error-level (not warn-level) log entry.  (With an
empty cache the implicit lazy load may throw, and the only warn-level
entry is the lazy-load notice, not the absent-sheet one.) -/
theorem C2_lookup_total_when_cache_nonempty (fs : FileSystem) (n k : String) (v : CellValue)
    (st : DataServiceState) (h : st.cache ≠ []) :
    (∃ res, (getSingleData fs n k v st).1 = Except.ok res) ∧
    (st.cache.lookup n = none →
      getSingleData fs n k v st =
        (Except.ok none, st,
          [⟨LogLevel.error, "Sheet '" ++ n ++ "' not found in Excel file."⟩])) := by
  constructor
  · cases hl : st.cache.lookup n with
    | none =>
        refine ⟨none, ?_⟩
        simp [getSingleData, getData_missing fs n st h hl]
    | some d =>
        exact ⟨d.find? fun row => decide (row.lookup k = some v),
          by rw [getSingleData_found fs n k v st d hl]⟩
  · intro hl
    simp [getSingleData, getData_missing fs n st h hl]

/-- C2 witness: a populated cache queried for an absent sheet. -/
theorem C2_lookup_total_when_cache_nonempty_witness :
    (⟨[("Login", [[("username", CellValue.str "admin")]])]⟩ : DataServiceState).cache ≠ [] ∧
    ((∃ res, (getSingleData (fun _ => Except.error "ENOENT") "Missing" "test_case_id"
          (CellValue.str "TC-1") ⟨[("Login", [[("username", CellValue.str "admin")]])]⟩).1 =
        Except.ok res) ∧
      ((⟨[("Login", [[("username", CellValue.str "admin")]])]⟩ :
            DataServiceState).cache.lookup "Missing" = none →
        getSingleData (fun _ => Except.error "ENOENT") "Missing" "test_case_id"
            (CellValue.str "TC-1") ⟨[("Login", [[("username", CellValue.str "admin")]])]⟩ =
          (Except.ok none, ⟨[("Login", [[("username", CellValue.str "admin")]])]⟩,
            [⟨LogLevel.error, "Sheet '" ++ "Missing" ++ "' not found in Excel file."⟩]))) :=
  ⟨by decide,
    C2_lookup_total_when_cache_nonempty (fun _ => Except.error "ENOENT") "Missing"
      "test_case_id" (CellValue.str "TC-1")
      ⟨[("Login", [[("username", CellValue.str "admin")]])]⟩ (by decide)⟩

/-! ### Claim C1 — corrected: reload merges the cache instead of replacing it -/

/-- Workbook of the first load in the C1 scenario: a single sheet
`Old`. -/
def wbOld : Workbook := [("Old", [[("c", CellValue.str "1")]])]

/-- Workbook of the second load in the C1 scenario: a single sheet
`New`; `Old` does not occur in it. -/
def wbNew : Workbook := [("New", [[("c", CellValue.str "2")]])]

/-- A file system holding the two workbooks at distinct paths. -/
def fsTwo : FileSystem := fun p =>
  if p = "a.xlsx" then Except.ok wbOld
  else if p = "b.xlsx" then Except.ok wbNew
  else Except.error "ENOENT"

/-- C1 counterexample: load `a.xlsx` (sheet `Old`), then successfully
load `b.xlsx`, whose only sheet is `New`.  Afterwards the cache still
maps `Old` to its rows from the first load, so the cache does not map
exactly the sheet names of the newly loaded file — the load merges
rather than replaces. -/
theorem C1_reload_keeps_old_sheet_counterexample :
    (loadData fsTwo "b.xlsx" ((loadData fsTwo "a.xlsx" ⟨[]⟩).2.1)).1 = Except.ok () ∧
    fsTwo "b.xlsx" = Except.ok [("New", [[("c", CellValue.str "2")]])] ∧
    ((loadData fsTwo "b.xlsx" ((loadData fsTwo "a.xlsx" ⟨[]⟩).2.1)).2.1).cache.lookup "Old" =
      some [[("c", CellValue.str "1")]] := by
  refine ⟨rfl, rfl, rfl⟩

/-- C1 as amended: after `loadData` succeeds on a workbook with distinct
sheet names, the cache maps every sheet name of the new file to that
file's rows, while sheet names absent from the new file keep whatever
binding (if any) an earlier load gave them — the new sheets are layered
over the old cache (merge), not a full replacement. -/
theorem C1_load_merges_cache (fs : FileSystem) (filePath : String) (st : DataServiceState)
    (wb : Workbook) (h : fs filePath = Except.ok wb)
    (hnodup : (wb.map Prod.fst).Nodup) :
    (loadData fs filePath st).1 = Except.ok () ∧
    (∀ name rows, wb.lookup name = some rows →
        ((loadData fs filePath st).2.1).cache.lookup name = some rows) ∧
    (∀ name, name ∉ wb.map Prod.fst →
        ((loadData fs filePath st).2.1).cache.lookup name = st.cache.lookup name) := by
  refine ⟨by simp [loadData, h], ?_, ?_⟩
  · intro name rows hlk
    have : (loadData fs filePath st).2.1 =
        ⟨wb.foldl (fun c p => jsObjectSet c p.1 p.2) st.cache⟩ := by
      simp [loadData, h]
    rw [this]
    exact foldl_jsObjectSet_lookup_found wb st.cache name rows hnodup hlk
  · intro name hmem
    have : (loadData fs filePath st).2.1 =
        ⟨wb.foldl (fun c p => jsObjectSet c p.1 p.2) st.cache⟩ := by
      simp [loadData, h]
    rw [this]
    exact foldl_jsObjectSet_lookup_not_mem wb st.cache name hmem

/-- C1 witness: applying the merge theorem to the second load of the
counterexample scenario shows `New` becomes queryable at its new rows
while `Old` keeps its rows from the first load. -/
theorem C1_load_merges_cache_witness :
    fsTwo "b.xlsx" = Except.ok wbNew ∧ (wbNew.map Prod.fst).Nodup ∧
    ((loadData fsTwo "b.xlsx" ((loadData fsTwo "a.xlsx" ⟨[]⟩).2.1)).2.1).cache.lookup "New" =
      some [[("c", CellValue.str "2")]] ∧
    ((loadData fsTwo "b.xlsx" ((loadData fsTwo "a.xlsx" ⟨[]⟩).2.1)).2.1).cache.lookup "Old" =
      ((loadData fsTwo "a.xlsx" ⟨[]⟩).2.1).cache.lookup "Old" :=
  ⟨rfl, by decide,
    (C1_load_merges_cache fsTwo "b.xlsx" ((loadData fsTwo "a.xlsx" ⟨[]⟩).2.1) wbNew rfl
        (by decide)).2.1 "New" [[("c", CellValue.str "2")]] rfl,
    (C1_load_merges_cache fsTwo "b.xlsx" ((loadData fsTwo "a.xlsx" ⟨[]⟩).2.1) wbNew rfl
        (by decide)).2.2 "Old" (by decide)⟩

/-! ### Claim C4 — corrected: routing of the `expected_result` value -/

/-- A list starts with itself followed by anything. -/
theorem leadsWith_append_self (p rest : List Char) : leadsWith p (p ++ rest) = true := by
  induction p with
  | nil => rfl
  | cons a as ih => simp [leadsWith, ih]

/-- Replacing the first occurrence of a non-empty pattern in a string
that begins with that very pattern strips it. -/
theorem replaceFirstChars_strip_leading (c : Char) (cs rest repl : List Char) :
    replaceFirstChars (c :: cs) repl ((c :: cs) ++ rest) = repl ++ rest := by
  have h : leadsWith (c :: cs) ((c :: cs) ++ rest) = true := leadsWith_append_self _ _
  show replaceFirstChars (c :: cs) repl (c :: (cs ++ rest)) = repl ++ rest
  rw [replaceFirstChars]
  simp only [List.cons_append] at h
  rw [if_pos h]
  simp [List.drop_left']

/-- C4 counterexample: a row whose `expected_result` is the empty string
matches neither prefix, yet the step throws the
`Expected result not set in test data.` error (the value is falsy), not
the `Unknown expected result format` one the claim requires for "any
other value". -/
theorem C4_empty_expected_counterexample :
    jsStartsWith "" "Success" = false ∧ jsStartsWith "" "Error:" = false ∧
    assertLoginOutcome (some "") = LoginOutcome.missingExpected ∧
    LoginOutcome.missingExpected ≠ LoginOutcome.unknownFormat "" := by
  refine ⟨rfl, rfl, rfl, by decide⟩

/-- C4 as amended: for every non-empty `expected_result` value, a
`Success` prefix routes to the redirect-plus-landmark branch, an
`Error:` prefix routes to the branch asserting the error message
(obtained by removing the first `"Error: "` occurrence — exactly the
suffix for values of the documented `"Error: <msg>"` shape) and that the
session stays on the login screen, and any other non-empty value throws
the unrecognized-format error; an empty or absent value instead throws
the missing-expected-result error. -/
theorem C4_expected_result_routing (s msg : String) (hne : s ≠ "") :
    (jsStartsWith s "Success" = true →
      assertLoginOutcome (some s) = LoginOutcome.successBranch) ∧
    (jsStartsWith s "Success" = false → jsStartsWith s "Error:" = true →
      assertLoginOutcome (some s) = LoginOutcome.errorBranch (jsReplaceFirst s "Error: " "")) ∧
    (jsStartsWith s "Success" = false → jsStartsWith s "Error:" = false →
      assertLoginOutcome (some s) = LoginOutcome.unknownFormat s) ∧
    assertLoginOutcome (some ("Error: " ++ msg)) = LoginOutcome.errorBranch msg ∧
    assertLoginOutcome none = LoginOutcome.missingExpected ∧
    assertLoginOutcome (some "") = LoginOutcome.missingExpected := by
  refine ⟨?_, ?_, ?_, ?_, rfl, rfl⟩
  · intro h1
    simp [assertLoginOutcome, hne, h1]
  · intro h1 h2
    simp [assertLoginOutcome, hne, h1, h2]
  · intro h1 h2
    simp [assertLoginOutcome, hne, h1, h2]
  · have hne2 : ("Error: " ++ msg) ≠ "" := by
      intro h
      have hd := congrArg String.data h
      rw [String.data_append] at hd
      simp at hd
    have h1 : jsStartsWith ("Error: " ++ msg) "Success" = false := by
      show leadsWith "Success".data ("Error: " ++ msg).data = false
      rw [String.data_append]
      rfl
    have h2 : jsStartsWith ("Error: " ++ msg) "Error:" = true := by
      show leadsWith "Error:".data ("Error: " ++ msg).data = true
      rw [String.data_append]
      rfl
    have h3 : jsReplaceFirst ("Error: " ++ msg) "Error: " "" = msg := by
      show (⟨replaceFirstChars "Error: ".data "".data ("Error: " ++ msg).data⟩ : String) = msg
      rw [String.data_append]
      rw [show "Error: ".data = 'E' :: 'r' :: 'r' :: 'o' :: 'r' :: ':' :: ' ' :: [] from rfl]
      rw [replaceFirstChars_strip_leading]
      rfl
    simp [assertLoginOutcome, hne2, h1, h2, h3]

/-- C4 witness: the documented `"Error: <msg>"` shape routes to the
error branch carrying exactly the suffix. -/
theorem C4_expected_result_routing_witness :
    ("Error: Invalid credentials" ≠ "") ∧
    assertLoginOutcome (some ("Error: " ++ "Invalid credentials")) =
      LoginOutcome.errorBranch "Invalid credentials" :=
  ⟨by decide,
    (C4_expected_result_routing "Error: Invalid credentials" "Invalid credentials"
        (by decide)).2.2.2.1⟩

/-! ### Claim C5 — scenario generation is row-wise and idempotent -/

/-- Appending a source row appends exactly one scenario block, at the
row's position. -/
theorem buildLoginFeature_append (data : List LoginRow) (row : LoginRow) :
    buildLoginFeature (data ++ [row]) =
      buildLoginFeature data ++ scenarioBlock data.length row := by
  unfold buildLoginFeature
  rw [List.enum_append, List.foldl_append]
  simp [List.enumFrom]

/-- C5: `generateLoginFeature` writes the built content to the fixed
output path, overwriting whatever was there; the content is the feature
header for no rows and grows by exactly one scenario block per row in
row order (columns substituted literally by `scenarioBlock`); and
re-running it on the same data leaves the file store byte-identical
(idempotence). -/
theorem C5_generate_overwrite_idempotent (data : List LoginRow) (row : LoginRow)
    (fs : FileStore) :
    (generateLoginFeature data fs).lookup FEATURE_OUTPUT_PATH =
        some (buildLoginFeature data) ∧
    generateLoginFeature data (generateLoginFeature data fs) = generateLoginFeature data fs ∧
    buildLoginFeature [] = "Feature: Login DDT Tests\n" ∧
    buildLoginFeature (data ++ [row]) =
      buildLoginFeature data ++ scenarioBlock data.length row := by
  refine ⟨?_, jsObjectSet_idem fs FEATURE_OUTPUT_PATH _, rfl, buildLoginFeature_append data row⟩
  rw [generateLoginFeature, jsObjectSet_lookup]
  simp

/-! ### Claims C6 and C8 — configuration resolution -/

/-- Evaluating `x || d` keeps a set, non-empty value. -/
theorem jsOr_some_of_ne (s d : String) (h : s ≠ "") : jsOr (some s) d = s := by
  simp [jsOr, h]

/-- The `TIMEOUT` setting is taken from the base settings in every profile. -/
theorem getConfig_TIMEOUT (env : ProcessEnv) :
    (getConfig env).TIMEOUT = jsParseInt (jsOr env.TIMEOUT "30000") := by
  simp only [getConfig]
  split
  · rfl
  · split
    · rfl
    · split <;> rfl

/-- The `BROWSER` setting is taken from the base settings in every profile. -/
theorem getConfig_BROWSER (env : ProcessEnv) :
    (getConfig env).BROWSER = jsOr env.BROWSER "chromium" := by
  simp only [getConfig]
  split
  · rfl
  · split
    · rfl
    · split <;> rfl

/-- The `VIEWPORT_WIDTH` setting is taken from the base settings in every profile. -/
theorem getConfig_VIEWPORT_WIDTH (env : ProcessEnv) :
    (getConfig env).VIEWPORT_WIDTH = jsParseInt (jsOr env.VIEWPORT_WIDTH "1920") := by
  simp only [getConfig]
  split
  · rfl
  · split
    · rfl
    · split <;> rfl

/-- The `VIEWPORT_HEIGHT` setting is taken from the base settings in every profile. -/
theorem getConfig_VIEWPORT_HEIGHT (env : ProcessEnv) :
    (getConfig env).VIEWPORT_HEIGHT = jsParseInt (jsOr env.VIEWPORT_HEIGHT "1080") := by
  simp only [getConfig]
  split
  · rfl
  · split
    · rfl
    · split <;> rfl

/-- The `HEADLESS` setting is decided by the profile alone: `true` exactly for the
`production` and `staging` profiles, whatever the `HEADLESS` variable
says. -/
theorem getConfig_HEADLESS_iff (env : ProcessEnv) :
    (getConfig env).HEADLESS = true ↔
      (jsOr env.NODE_ENV "local" = "production" ∨ jsOr env.NODE_ENV "local" = "staging") := by
  simp only [getConfig]
  split
  next h => simp [h]
  next h =>
    split
    next h2 => simp [h2]
    next h2 =>
      split
      next h3 => simp [h, h2]
      next h3 => simp [h, h2]

/-- The `BASE_URL` setting in the `production` profile comes from `PROD_BASE_URL`. -/
theorem getConfig_BASE_URL_production (env : ProcessEnv) (h : env.NODE_ENV = some "production") :
    (getConfig env).BASE_URL = jsOr env.PROD_BASE_URL "https://prod.example.com" := by
  simp [getConfig, h, jsOr]

/-- The `BASE_URL` setting in the `staging` profile comes from `STAGING_BASE_URL`. -/
theorem getConfig_BASE_URL_staging (env : ProcessEnv) (h : env.NODE_ENV = some "staging") :
    (getConfig env).BASE_URL = jsOr env.STAGING_BASE_URL "https://staging.example.com" := by
  simp [getConfig, h, jsOr]

/-- The `BASE_URL` setting in the `development` profile comes from `DEV_BASE_URL`. -/
theorem getConfig_BASE_URL_development (env : ProcessEnv)
    (h : env.NODE_ENV = some "development") :
    (getConfig env).BASE_URL = jsOr env.DEV_BASE_URL "http://localhost:5173" := by
  simp [getConfig, h, jsOr]

/-- The `BASE_URL` setting in the `local` profile comes from `LOCAL_BASE_URL`. -/
theorem getConfig_BASE_URL_local (env : ProcessEnv) (h : env.NODE_ENV = some "local") :
    (getConfig env).BASE_URL = jsOr env.LOCAL_BASE_URL "http://localhost:5173" := by
  simp [getConfig, h, jsOr]

/-- The `SLOW_MO` setting in the `production` profile comes from the env var. -/
theorem getConfig_SLOW_MO_production (env : ProcessEnv) (h : env.NODE_ENV = some "production") :
    (getConfig env).SLOW_MO = jsParseInt (jsOr env.SLOW_MO "0") := by
  simp [getConfig, h, jsOr]

/-- The `SLOW_MO` setting in the `local` profile is hard-coded to 50. -/
theorem getConfig_SLOW_MO_local (env : ProcessEnv) (h : env.NODE_ENV = some "local") :
    (getConfig env).SLOW_MO = some 50 := by
  simp [getConfig, h, jsOr]

/-- C6 counterexample: with `NODE_ENV=production` and `HEADLESS=false`
set, the resolved settings carry `HEADLESS = true` — the profile's
hard-coded value overrides the environment variable, not the other way
round as the claim states. -/
theorem C6_headless_env_ignored_counterexample :
    ({ NODE_ENV := some "production", HEADLESS := some "false" } : ProcessEnv).HEADLESS =
        some "false" ∧
    (getConfig { NODE_ENV := some "production", HEADLESS := some "false" }).HEADLESS = true := by
  exact ⟨rfl, rfl⟩

/-- C6 as amended: environment variables do override the profile
defaults for `TIMEOUT`, `BROWSER`, the viewport dimensions, each
profile's base-URL variant, and `SLOW_MO` in the `production` profile —
but `HEADLESS` is decided solely by the profile (`true` exactly for
`production` and `staging`) regardless of the `HEADLESS` variable, and
`SLOW_MO` is hard-coded to 50 in the `local` profile. -/
theorem C6_env_overrides (env : ProcessEnv) (s : String) :
    (env.TIMEOUT = some s → s ≠ "" → (getConfig env).TIMEOUT = jsParseInt s) ∧
    (env.BROWSER = some s → s ≠ "" → (getConfig env).BROWSER = s) ∧
    (env.VIEWPORT_WIDTH = some s → s ≠ "" → (getConfig env).VIEWPORT_WIDTH = jsParseInt s) ∧
    (env.VIEWPORT_HEIGHT = some s → s ≠ "" → (getConfig env).VIEWPORT_HEIGHT = jsParseInt s) ∧
    (env.NODE_ENV = some "production" → env.PROD_BASE_URL = some s → s ≠ "" →
      (getConfig env).BASE_URL = s) ∧
    (env.NODE_ENV = some "staging" → env.STAGING_BASE_URL = some s → s ≠ "" →
      (getConfig env).BASE_URL = s) ∧
    (env.NODE_ENV = some "development" → env.DEV_BASE_URL = some s → s ≠ "" →
      (getConfig env).BASE_URL = s) ∧
    (env.NODE_ENV = some "local" → env.LOCAL_BASE_URL = some s → s ≠ "" →
      (getConfig env).BASE_URL = s) ∧
    (env.NODE_ENV = some "production" → env.SLOW_MO = some s → s ≠ "" →
      (getConfig env).SLOW_MO = jsParseInt s) ∧
    ((getConfig env).HEADLESS = true ↔
      (jsOr env.NODE_ENV "local" = "production" ∨ jsOr env.NODE_ENV "local" = "staging")) ∧
    (env.NODE_ENV = some "local" → (getConfig env).SLOW_MO = some 50) := by
  refine ⟨?_, ?_, ?_, ?_, ?_, ?_, ?_, ?_, ?_, getConfig_HEADLESS_iff env,
    fun h => getConfig_SLOW_MO_local env h⟩
  · intro h hs
    rw [getConfig_TIMEOUT, h, jsOr_some_of_ne s _ hs]
  · intro h hs
    rw [getConfig_BROWSER, h, jsOr_some_of_ne s _ hs]
  · intro h hs
    rw [getConfig_VIEWPORT_WIDTH, h, jsOr_some_of_ne s _ hs]
  · intro h hs
    rw [getConfig_VIEWPORT_HEIGHT, h, jsOr_some_of_ne s _ hs]
  · intro h h2 hs
    rw [getConfig_BASE_URL_production env h, h2, jsOr_some_of_ne s _ hs]
  · intro h h2 hs
    rw [getConfig_BASE_URL_staging env h, h2, jsOr_some_of_ne s _ hs]
  · intro h h2 hs
    rw [getConfig_BASE_URL_development env h, h2, jsOr_some_of_ne s _ hs]
  · intro h h2 hs
    rw [getConfig_BASE_URL_local env h, h2, jsOr_some_of_ne s _ hs]
  · intro h h2 hs
    rw [getConfig_SLOW_MO_production env h, h2, jsOr_some_of_ne s _ hs]

/-- C6 witness: with `NODE_ENV=production` and `TIMEOUT=45000` set, the
resolved `TIMEOUT` carries the variable's parsed value and the resolved
`BASE_URL` carries `PROD_BASE_URL`. -/
theorem C6_env_overrides_witness :
    ({ NODE_ENV := some "production", TIMEOUT := some "45000",
       PROD_BASE_URL := some "https://p.example.org" } : ProcessEnv).TIMEOUT = some "45000" ∧
    ("45000" : String) ≠ "" ∧
    (getConfig { NODE_ENV := some "production", TIMEOUT := some "45000",
                 PROD_BASE_URL := some "https://p.example.org" }).TIMEOUT =
      jsParseInt "45000" ∧
    (getConfig { NODE_ENV := some "production", TIMEOUT := some "45000",
                 PROD_BASE_URL := some "https://p.example.org" }).BASE_URL =
      "https://p.example.org" :=
  ⟨rfl, by decide,
    (C6_env_overrides { NODE_ENV := some "production", TIMEOUT := some "45000",
                        PROD_BASE_URL := some "https://p.example.org" } "45000").1 rfl
      (by decide),
    (C6_env_overrides { NODE_ENV := some "production", TIMEOUT := some "45000",
                        PROD_BASE_URL := some "https://p.example.org" }
        "https://p.example.org").2.2.2.2.1 rfl rfl (by decide)⟩

/-- C8: for every environment state whose `NODE_ENV` is a non-empty
name outside the enumerated profile set, `getConfig` still returns a
settings object, equal to the `local` profile's resolution except that
the `ENV` field records the unrecognized name — the `switch` falls
through `case 'local': default:`. -/
theorem C8_unknown_env_falls_back_to_local (env : ProcessEnv) (n : String)
    (h : env.NODE_ENV = some n) (h0 : n ≠ "") (h1 : n ≠ "production")
    (h2 : n ≠ "staging") (h3 : n ≠ "development") :
    getConfig env = { getConfig { env with NODE_ENV := some "local" } with ENV := n } := by
  simp [getConfig, h, jsOr, h0, h1, h2, h3]

/-- C8 witness: the unrecognized name `testing`. -/
theorem C8_unknown_env_falls_back_to_local_witness :
    ({ NODE_ENV := some "testing" } : ProcessEnv).NODE_ENV = some "testing" ∧
    ("testing" : String) ≠ "" ∧ ("testing" : String) ≠ "production" ∧
    ("testing" : String) ≠ "staging" ∧ ("testing" : String) ≠ "development" ∧
    getConfig { NODE_ENV := some "testing" } =
      { getConfig { ({ NODE_ENV := some "testing" } : ProcessEnv) with
                    NODE_ENV := some "local" } with ENV := "testing" } :=
  ⟨rfl, by decide, by decide, by decide, by decide,
    C8_unknown_env_falls_back_to_local { NODE_ENV := some "testing" } "testing" rfl
      (by decide) (by decide) (by decide) (by decide)⟩
